import Mathlib

/- Verification of the RePhinD patent retrieval and re-ranking engine
   (src/rag_system.py and src/main.py).

   Modelling conventions:
   - Python floats are modelled as rationals: every numeric constant in the
     scoring pipeline is a short decimal literal and every verified claim is
     about which branch is taken and which factors are multiplied, not about
     binary rounding.
   - Python strings are modelled as Lean strings; `str.lower()` is modelled
     by ASCII lowercasing (`Char.toLower`), which agrees with Python on all
     character data occurring in the source tables (ASCII letters, digits,
     punctuation, and Hangul, which `lower()` leaves unchanged).
   - Python dicts used as literal keyword tables are modelled as association
     lists in the source (insertion) order, which is the dict iteration
     order the code relies on. -/

/-- Python two-argument `min` on scores: an explicit comparison, used
instead of the order-instance `min` so that terms evaluate by reduction. -/
def pyMin (a b : ℚ) : ℚ := if a ≤ b then a else b

/-- ASCII lowercasing of a character list: models Python `str.lower()`
on the character sets used by the source. -/
def lowerChars (cs : List Char) : List Char := cs.map Char.toLower

/-- True when `needle` occurs as a contiguous substring of `hay`: models the Python
`in` operator on strings (the empty needle is contained in everything). -/
def containsSub (needle hay : List Char) : Bool :=
  match hay with
  | [] => needle.isEmpty
  | c :: t => needle.isPrefixOf (c :: t) || containsSub needle t

/-- Case-insensitive keyword containment, exactly as the source computes it:
`keyword.lower() in text.lower()`. -/
def containsCI (keyword text : String) : Bool :=
  containsSub (lowerChars keyword.data) (lowerChars text.data)

/-- Keywords of the `Mart강` entry of `product_group_keywords`
(rag_system.py line 213). -/
def martProductKeywords : List String :=
  ["Mart강", "마르텐사이트강", "martensitic", "마르텐사이트"]

/-- Keywords of the `HPF강` entry of `product_group_keywords`
(rag_system.py line 214). -/
def hpfProductKeywords : List String :=
  ["HPF강", "HPF", "Hot Press Forming", "핫프레스포밍"]

/-- The `product_group_keywords` table of `_extract_product_group_from_query`
(rag_system.py lines 212-224), in source insertion order. -/
def productGroupKeywords : List (String × List String) :=
  [("Mart강", martProductKeywords),
   ("HPF강", hpfProductKeywords),
   ("스테인리스강", ["스테인리스", "스테인레스", "stainless"]),
   ("탄소강", ["탄소강", "carbon steel"]),
   ("합금강", ["합금강", "alloy steel"]),
   ("고강도강", ["고강도", "high strength"]),
   ("강판", ["강판", "steel sheet", "steel plate"]),
   ("강재", ["강재", "steel material"]),
   ("도금강판", ["도금", "아연도금", "galvanized", "coated"]),
   ("냉연강판", ["냉연", "cold rolled"]),
   ("열연강판", ["열연", "hot rolled"])]

/-- Mirrors `_extract_product_group_from_query` (rag_system.py lines 209-233):
first table entry one of whose keywords occurs case-insensitively in the
query text wins; empty string if no keyword matches. -/
def extractProductGroupFromQuery (queryText : String) : String :=
  match productGroupKeywords.find?
      (fun e => e.2.any (fun kw => containsCI kw queryText)) with
  | some e => e.1
  | none => ""

/-- Keywords of the `HPF강` entry of `steel_grade_keywords`
(rag_system.py line 239). -/
def hpfGradeKeywords : List String :=
  ["HPF강", "HPF", "Hot Press Forming", "핫프레스포밍", "핫스탬핑"]

/-- Keywords of the `Mart강` entry of `steel_grade_keywords`
(rag_system.py line 240). -/
def martGradeKeywords : List String :=
  ["Mart강", "마르텐사이트강", "martensitic steel", "마르텐사이트계"]

/-- The `steel_grade_keywords` table of `_extract_steel_grade_from_query`
(rag_system.py lines 238-255), in source insertion order: the `HPF강`
entry comes before the `Mart강` entry. -/
def steelGradeKeywords : List (String × List String) :=
  [("HPF강", hpfGradeKeywords),
   ("Mart강", martGradeKeywords),
   ("DP강", ["DP강", "Dual Phase", "듀얼페이즈", "dual phase"]),
   ("TRIP강", ["TRIP강", "TRIP", "transformation induced plasticity"]),
   ("CP강", ["CP강", "Complex Phase", "복합조직강"]),
   ("TWIP강", ["TWIP강", "TWIP", "twinning induced plasticity"]),
   ("FB강", ["FB강", "Ferrite Bainite", "페라이트베이나이트"]),
   ("IF강", ["IF강", "Interstitial Free", "극저탄소강"]),
   ("고장력강", ["고장력강", "high tensile", "고인장강도"]),
   ("초고장력강", ["초고장력강", "ultra high tensile", "UHTS"]),
   ("스테인리스강", ["스테인리스강", "stainless steel", "스테인레스강"]),
   ("탄소강", ["탄소강", "carbon steel"]),
   ("합금강", ["합금강", "alloy steel"]),
   ("도금강판", ["도금강판", "아연도금강판", "galvanized steel", "coated steel"]),
   ("냉연강판", ["냉연강판", "cold rolled steel"]),
   ("열연강판", ["열연강판", "hot rolled steel"])]

/-- Mirrors `_extract_steel_grade_from_query` (rag_system.py lines 235-265). -/
def extractSteelGradeFromQuery (queryText : String) : String :=
  match steelGradeKeywords.find?
      (fun e => e.2.any (fun kw => containsCI kw queryText)) with
  | some e => e.1
  | none => ""

/-- The `related_groups` table of `_are_related_product_groups`
(rag_system.py lines 437-447). -/
def relatedGroups : List (String × List String) :=
  [("Mart강", ["고강도강", "HPF강"]),
   ("HPF강", ["고강도강", "Mart강"]),
   ("고강도강", ["Mart강", "HPF강"]),
   ("강판", ["도금강판", "냉연강판", "열연강판"]),
   ("도금강판", ["강판", "냉연강판"]),
   ("냉연강판", ["강판", "도금강판"]),
   ("열연강판", ["강판"]),
   ("스테인리스강", ["합금강"]),
   ("합금강", ["스테인리스강"])]

/-- Mirrors `_are_related_product_groups` (rag_system.py lines 435-449):
`group2 in related_groups.get(group1, [])`. -/
def areRelatedProductGroups (group1 group2 : String) : Bool :=
  match relatedGroups.find? (fun e => e.1 == group1) with
  | some e => e.2.contains group2
  | none => false

/-- The `similarity_matrix` of `_calculate_steel_grade_similarity`
(rag_system.py lines 343-422), rows and row entries in source order. -/
def gradeSimilarityMatrix : List (String × List (String × ℚ)) :=
  [("HPF강",
    [("Mart강", (mkRat 1 100)), ("DP강", (mkRat 3 10)), ("TRIP강", (mkRat 1 4)), ("CP강", (mkRat 7 20)),
     ("TWIP강", (mkRat 1 5)), ("FB강", (mkRat 2 5)), ("고장력강", (mkRat 3 5)), ("초고장력강", (mkRat 4 5)),
     ("스테인리스강", (mkRat 1 10)), ("탄소강", (mkRat 1 5)), ("합금강", (mkRat 2 5))]),
   ("Mart강",
    [("HPF강", (mkRat 1 100)), ("DP강", (mkRat 2 5)), ("TRIP강", (mkRat 7 20)), ("CP강", (mkRat 1 2)),
     ("TWIP강", (mkRat 3 10)), ("FB강", (mkRat 3 5)), ("고장력강", (mkRat 7 10)), ("초고장력강", (mkRat 4 5)),
     ("스테인리스강", (mkRat 1 5)), ("탄소강", (mkRat 3 10)), ("합금강", (mkRat 3 5))]),
   ("DP강",
    [("HPF강", (mkRat 3 10)), ("Mart강", (mkRat 2 5)), ("TRIP강", (mkRat 7 10)), ("CP강", (mkRat 4 5)),
     ("TWIP강", (mkRat 3 5)), ("FB강", (mkRat 7 10)), ("고장력강", (mkRat 4 5)), ("초고장력강", (mkRat 7 10)),
     ("스테인리스강", (mkRat 1 10)), ("탄소강", (mkRat 3 10)), ("합금강", (mkRat 1 2))]),
   ("TRIP강",
    [("HPF강", (mkRat 1 4)), ("Mart강", (mkRat 7 20)), ("DP강", (mkRat 7 10)), ("CP강", (mkRat 3 4)),
     ("TWIP강", (mkRat 4 5)), ("FB강", (mkRat 3 5)), ("고장력강", (mkRat 7 10)), ("초고장력강", (mkRat 3 5)),
     ("스테인리스강", (mkRat 1 10)), ("탄소강", (mkRat 1 5)), ("합금강", (mkRat 2 5))]),
   ("고장력강",
    [("HPF강", (mkRat 3 5)), ("Mart강", (mkRat 7 10)), ("DP강", (mkRat 4 5)), ("TRIP강", (mkRat 7 10)),
     ("CP강", (mkRat 4 5)), ("TWIP강", (mkRat 3 5)), ("FB강", (mkRat 7 10)), ("초고장력강", (mkRat 9 10)),
     ("스테인리스강", (mkRat 1 5)), ("탄소강", (mkRat 1 2)), ("합금강", (mkRat 3 5))]),
   ("초고장력강",
    [("HPF강", (mkRat 4 5)), ("Mart강", (mkRat 4 5)), ("DP강", (mkRat 7 10)), ("TRIP강", (mkRat 3 5)),
     ("CP강", (mkRat 7 10)), ("TWIP강", (mkRat 1 2)), ("FB강", (mkRat 3 5)), ("고장력강", (mkRat 9 10)),
     ("스테인리스강", (mkRat 1 10)), ("탄소강", (mkRat 3 10)), ("합금강", (mkRat 1 2))])]

/-- Direct lookup `similarity_matrix[grade1][grade2]` guarded by the two
`in` checks of the source (`grade1 in matrix and grade2 in matrix[grade1]`). -/
def matrixEntry (grade1 grade2 : String) : Option ℚ :=
  match gradeSimilarityMatrix.find? (fun r => r.1 == grade1) with
  | some r =>
    match r.2.find? (fun e => e.1 == grade2) with
    | some e => some e.2
    | none => none
  | none => none

/-- Mirrors `_calculate_steel_grade_similarity` (rag_system.py lines 337-433):
equal grades give 1.0, then direct lookup, then reverse lookup, then the
default 0.1. -/
def calculateSteelGradeSimilarity (grade1 grade2 : String) : ℚ :=
  if grade1 = grade2 then 1
  else
    match matrixEntry grade1 grade2 with
    | some v => v
    | none =>
      match matrixEntry grade2 grade1 with
      | some v => v
      | none => (mkRat 1 10)

/-- The `technical_terms` vocabulary of `_calculate_technical_content_bonus`
(rag_system.py lines 456-461). -/
def technicalTerms : List String :=
  ["마르텐사이트", "베이나이트", "오스테나이트", "페라이트",
   "인장강도", "항복강도", "연신율", "굽힘",
   "탄소", "망간", "실리콘", "크롬", "몰리브덴",
   "열처리", "냉각", "가열", "템퍼링"]

/-- Mirrors `_calculate_technical_content_bonus` (rag_system.py lines 451-475):
count terms occurring in both lowercased texts; bonus is
`min(count * 0.02, 0.1)` when the count is positive, else 0. -/
def calculateTechnicalContentBonus (queryText claimText : String) : ℚ :=
  let queryLower := lowerChars queryText.data
  let claimLower := lowerChars claimText.data
  let commonTerms := technicalTerms.countP
    (fun term => containsSub term.data queryLower && containsSub term.data claimLower)
  if 0 < commonTerms then pyMin ((commonTerms : ℚ) * mkRat 1 50) (mkRat 1 10) else 0

/-- Step 1 of `_calculate_enhanced_similarity` (rag_system.py
lines 276-288): the product-group exact/related/mismatch multiplier,
applied only when both groups are non-empty (Python truthiness). -/
def applyProductGroupStep (score : ℚ)
    (queryProductGroup patentProductGroup : String) : ℚ :=
  if queryProductGroup ≠ "" ∧ patentProductGroup ≠ "" then
    if queryProductGroup = patentProductGroup then score * mkRat 13 10
    else if areRelatedProductGroups queryProductGroup patentProductGroup then
      score * mkRat 23 20
    else score * mkRat 4 5
  else score

/-- Step 2 of `_calculate_enhanced_similarity` (rag_system.py
lines 290-298): the severe HPF/Mart cross-penalty, an `if`/`elif` pair
each multiplying by 0.1. -/
def applyCrossPenaltyStep (score : ℚ)
    (queryProductGroup patentProductGroup : String)
    (querySteelGrade patentSteelGrade : String) : ℚ :=
  if (queryProductGroup = "Mart강" ∧ patentProductGroup = "HPF강") ∨
     (querySteelGrade = "Mart강" ∧ patentSteelGrade = "HPF강") then
    score * mkRat 1 10
  else if (queryProductGroup = "HPF강" ∧ patentProductGroup = "Mart강") ∨
          (querySteelGrade = "HPF강" ∧ patentSteelGrade = "Mart강") then
    score * mkRat 1 10
  else score

/-- Step 3 of `_calculate_enhanced_similarity` (rag_system.py
lines 300-326): band multiplier on the steel-grade similarity, applied
only when both grades are non-empty. -/
def applySteelGradeStep (score : ℚ)
    (querySteelGrade patentSteelGrade : String) : ℚ :=
  if querySteelGrade ≠ "" ∧ patentSteelGrade ≠ "" then
    let sim := calculateSteelGradeSimilarity querySteelGrade patentSteelGrade
    if mkRat 9 10 ≤ sim then score * mkRat 5 4
    else if mkRat 7 10 ≤ sim then score * mkRat 23 20
    else if mkRat 1 2 ≤ sim then score * mkRat 21 20
    else if mkRat 3 10 ≤ sim then score * mkRat 19 20
    else if mkRat 1 10 ≤ sim then score * mkRat 3 4
    else score * mkRat 3 20
  else score

/-- Mirrors `_calculate_enhanced_similarity` (rag_system.py lines 267-335), the
ScoreAdjuster pipeline: the running `enhanced_score` goes through the
product-group step, the severe cross-penalty step, the steel-grade band
step and the technical-content bonus, then the final clamp
`min(score, 100.0)`. -/
def calculateEnhancedSimilarity (baseSimilarity : ℚ)
    (queryProductGroup patentProductGroup : String)
    (querySteelGrade patentSteelGrade : String)
    (queryText claimText : String) : ℚ :=
  let s1 := applyProductGroupStep baseSimilarity queryProductGroup
    patentProductGroup
  let s2 := applyCrossPenaltyStep s1 queryProductGroup patentProductGroup
    querySteelGrade patentSteelGrade
  let s3 := applySteelGradeStep s2 querySteelGrade patentSteelGrade
  let s4 := s3 * (1 + calculateTechnicalContentBonus queryText claimText)
  pyMin s4 100

/-- The step-1 product-group multiplier of the pipeline, in isolation
(1 when either group is empty). -/
def productGroupFactor (queryGroup patentGroup : String) : ℚ :=
  if queryGroup ≠ "" ∧ patentGroup ≠ "" then
    if queryGroup = patentGroup then (mkRat 13 10)
    else if areRelatedProductGroups queryGroup patentGroup then (mkRat 23 20)
    else (mkRat 4 5)
  else 1

/-- The step-3 steel-grade band multiplier of the pipeline, in isolation
(1 when either grade is empty). -/
def steelGradeFactor (queryGrade patentGrade : String) : ℚ :=
  if queryGrade ≠ "" ∧ patentGrade ≠ "" then
    let sim := calculateSteelGradeSimilarity queryGrade patentGrade
    if (mkRat 9 10) ≤ sim then mkRat 5 4
    else if (mkRat 7 10) ≤ sim then (mkRat 23 20)
    else if (mkRat 1 2) ≤ sim then (mkRat 21 20)
    else if (mkRat 3 10) ≤ sim then (mkRat 19 20)
    else if (mkRat 1 10) ≤ sim then (mkRat 3 4)
    else (mkRat 3 20)
  else 1

/-- The condition under which the severe HPF/Mart cross-penalty fires:
the disjunction of the two `if`/`elif` guards of rag_system.py
lines 291-296. -/
def severeCrossPenalty (qpg ppg qsg psg : String) : Prop :=
  ((qpg = "Mart강" ∧ ppg = "HPF강") ∨ (qsg = "Mart강" ∧ psg = "HPF강")) ∨
  ((qpg = "HPF강" ∧ ppg = "Mart강") ∨ (qsg = "HPF강" ∧ psg = "Mart강"))

instance (qpg ppg qsg psg : String) :
    Decidable (severeCrossPenalty qpg ppg qsg psg) := by
  unfold severeCrossPenalty
  infer_instance

/-- Python `str.isspace`-style whitespace as used by `strip()` and the
regex `\s` class, restricted to ASCII whitespace (the only whitespace
occurring in claim texts and patterns). -/
def isPySpace (c : Char) : Bool :=
  c = ' ' || c = '\t' || c = '\n' || c = '\r' || c = '\x0b' || c = '\x0c'

/-- Decimal value of a digit list (callers guarantee all characters are
digits). -/
def digitsToNat (cs : List Char) : ℕ :=
  cs.foldl (fun acc c => 10 * acc + (c.toNat - '0'.toNat)) 0

/-- Models Python `int(s)` on ASCII input: strip surrounding whitespace,
allow one optional sign, then require a non-empty all-digit body;
anything else raises (here: `none`). -/
def pyParseInt (s : String) : Option ℤ :=
  let cs := ((s.data.dropWhile isPySpace).reverse.dropWhile isPySpace).reverse
  match cs with
  | '-' :: rest =>
    if rest ≠ [] ∧ rest.all Char.isDigit then some (-(digitsToNat rest : ℤ))
    else none
  | '+' :: rest =>
    if rest ≠ [] ∧ rest.all Char.isDigit then some ((digitsToNat rest : ℤ))
    else none
  | _ =>
    if cs ≠ [] ∧ cs.all Char.isDigit then some ((digitsToNat cs : ℤ)) else none

/-- Mirrors `_extract_year` (rag_system.py lines 477-494) on a string argument:
empty (falsy) string short-circuits to 2020; otherwise split at the first
`-`, else the first `/`, else take the first 4 characters when the length
is at least 4, else 2020; any `int()` failure falls into the `except`
branch and yields 2020. -/
def extractYear (dateStr : String) : ℤ :=
  if dateStr = "" then 2020
  else if dateStr.data.contains '-' then
    (pyParseInt (String.mk (dateStr.data.takeWhile (fun c => c ≠ '-')))).getD 2020
  else if dateStr.data.contains '/' then
    (pyParseInt (String.mk (dateStr.data.takeWhile (fun c => c ≠ '/')))).getD 2020
  else if 4 ≤ dateStr.data.length then
    (pyParseInt (String.mk (dateStr.data.take 4))).getD 2020
  else 2020

/-- The year-extraction rule exactly as the spec words it (spec.md §4.2):
if the string contains `-`, integer-parse the substring before the first
`-`; else if it contains `/`, the substring before the first `/`; else if
its length is at least 4, its first 4 characters; otherwise 2020; a
non-numeric parse result also yields 2020. -/
def specYearExtract (dateStr : String) : ℤ :=
  if dateStr.data.contains '-' then
    (pyParseInt (String.mk (dateStr.data.takeWhile (fun c => c ≠ '-')))).getD 2020
  else if dateStr.data.contains '/' then
    (pyParseInt (String.mk (dateStr.data.takeWhile (fun c => c ≠ '/')))).getD 2020
  else if 4 ≤ dateStr.data.length then
    (pyParseInt (String.mk (dateStr.data.take 4))).getD 2020
  else 2020

/-- Python `str.strip()`. -/
def pyStrip (cs : List Char) : List Char :=
  ((cs.dropWhile isPySpace).reverse.dropWhile isPySpace).reverse

/-- The regex `\w` class restricted to the scripts occurring in this
corpus: ASCII alphanumerics, underscore, and Hangul syllables
(U+AC00-U+D7A3).  Python's Unicode `\w` agrees with this on every
character reachable from the source patterns and claim texts. -/
def isWordChar (c : Char) : Bool :=
  c.isAlphanum || c = '_' || (0xAC00 ≤ c.toNat && c.toNat ≤ 0xD7A3)

/-- The capture class `[\d.~%\s\w이상하내지]` of the element patterns
(rag_system.py lines 502-519). -/
def isElemValChar (c : Char) : Bool :=
  c.isDigit || c = '.' || c = '~' || c = '%' || isPySpace c || isWordChar c ||
  c = '이' || c = '상' || c = '하' || c = '내' || c = '지'

/-- Case-insensitive literal match at the head: returns the remainder on
success.  Models a literal regex atom under `re.IGNORECASE` (ASCII case
folding; Hangul is case-invariant). -/
def stripPrefixCI : List Char → List Char → Option (List Char)
  | [], rest => some rest
  | _ :: _, [] => none
  | p :: ps, c :: cs =>
    if p.toLower = c.toLower then stripPrefixCI ps cs else none

/-- The tail `\s*([class]+)` of an element pattern after its colon, with
the regex backtracking semantics: the greedy `\s*` hands one whitespace
character back to the capture when no class character follows it
(whitespace itself belongs to the class). -/
def elemCapture (cs : List Char) : Option (List Char × List Char) :=
  let sp := cs.takeWhile isPySpace
  let rest := cs.dropWhile isPySpace
  let cap := rest.takeWhile isElemValChar
  if cap ≠ [] then some (cap, rest.drop cap.length)
  else if sp ≠ [] then some ([sp.getLastD ' '], rest)
  else none

/-- One attempted match of an element pattern `SYM\s*:\s*([class]+)` at the
current position; returns the capture and the remainder after the match. -/
def matchElemAt (sym : List Char) (cs : List Char) :
    Option (List Char × List Char) :=
  match stripPrefixCI sym cs with
  | none => none
  | some r1 =>
    match r1.dropWhile isPySpace with
    | ':' :: r2 => elemCapture r2
    | _ => none

/-- Driver for `re.findall`: walk the text left to right, emitting each
non-overlapping match's capture and resuming after the match.  Every
matcher used here consumes at least one character on success, so fuel
equal to the text length suffices. -/
def scanWith (m : List Char → Option (List Char × List Char)) :
    ℕ → List Char → List (List Char)
  | 0, _ => []
  | _ + 1, [] => []
  | fuel + 1, c :: rest =>
    match m (c :: rest) with
    | some (cap, rem) => cap :: scanWith m fuel rem
    | none => scanWith m fuel rest

/-- One attempted match of the filler pattern `를?\s*함유하고?` with the
initial `를` already handled by the caller. -/
def matchFillerCore (cs : List Char) : Option (List Char) :=
  match cs.dropWhile isPySpace with
  | '함' :: '유' :: '하' :: r2 =>
    match r2 with
    | '고' :: r3 => some r3
    | _ => some r2
  | _ => none

/-- One attempted match of `를?\s*함유하고?` at the current position: the
greedy optional `를` is tried first, then given back. -/
def matchFillerAt (cs : List Char) : Option (List Char) :=
  match cs with
  | '를' :: rest =>
    match matchFillerCore rest with
    | some r => some r
    | none => matchFillerCore cs
  | _ => matchFillerCore cs

/-- Models `re.sub(r'를?\s*함유하고?', '', value)`: delete every match.  The
pattern cannot match the empty string, so each deletion consumes at least
one character. -/
def removeFillerAux : ℕ → List Char → List Char
  | 0, cs => cs
  | _ + 1, [] => []
  | fuel + 1, c :: rest =>
    match matchFillerAt (c :: rest) with
    | some rem => removeFillerAux fuel rem
    | none => c :: removeFillerAux fuel rest

/-- Global substitution of the filler pattern by the empty string. -/
def removeFiller (cs : List Char) : List Char := removeFillerAux cs.length cs

/-- The tail `[:\s]*([class]+)` of an alias element pattern, with the
backtracking of the greedy `[:\s]*` run: when no class character follows
the run, the run's trailing whitespace (never a colon) is handed back to
the capture, which then consists of whitespace only. -/
def aliasCapture (cs : List Char) : Option (List Char × List Char) :=
  let run := cs.takeWhile (fun c => c = ':' || isPySpace c)
  let rest := cs.drop run.length
  let cap := rest.takeWhile isElemValChar
  if cap ≠ [] then some (cap, rest.drop cap.length)
  else
    let trailingColons := run.reverse.takeWhile (fun c => c = ':')
    if trailingColons.length < run.length then
      some ([(run.drop (run.length - trailingColons.length - 1)).headD ' '],
            trailingColons.reverse ++ rest)
    else none

/-- Both alternatives of an optional literal `X?` at the head, in greedy
order: first with the literal consumed, then without. -/
def optLiteralAlts (lit : Char) (cs : List Char) : List (List Char) :=
  match cs with
  | c :: t => if c = lit then [t, cs] else [cs]
  | [] => [cs]

/-- The tail `\s*\(?\s*SYM\s*\)?\s*[:\s]*([class]+)` of an alias element
pattern (rag_system.py lines 512-519), after the alias word: optional
parentheses are tried greedily with backtracking. -/
def matchAliasTail (sym : List Char) (r1 : List Char) :
    Option (List Char × List Char) :=
  (optLiteralAlts '(' (r1.dropWhile isPySpace)).findSome? (fun r2 =>
    match stripPrefixCI sym (r2.dropWhile isPySpace) with
    | none => none
    | some r4 =>
      (optLiteralAlts ')' (r4.dropWhile isPySpace)).findSome? (fun r6 =>
        aliasCapture (r6.dropWhile isPySpace)))

/-- One attempted match of an alias element pattern
`(?:alias1|alias2)\s*\(?\s*SYM\s*\)?\s*[:\s]*([class]+)` at the current
position, trying the alternatives in order with backtracking. -/
def matchAliasAt (alts : List (List Char)) (sym : List Char)
    (cs : List Char) : Option (List Char × List Char) :=
  alts.findSome? (fun a =>
    match stripPrefixCI a cs with
    | none => none
    | some r1 => matchAliasTail sym r1)

/-- The capture `(\d+\s*%[^,]*)` of the microstructure patterns: greedy
digits, greedy whitespace, a literal `%`, then everything up to (not
including) the next comma. -/
def capturePercent (cs : List Char) : Option (List Char × List Char) :=
  let ds := cs.takeWhile Char.isDigit
  if ds = [] then none
  else
    let r1 := cs.drop ds.length
    let sp := r1.takeWhile isPySpace
    let r2 := r1.drop sp.length
    match r2 with
    | '%' :: r3 =>
      let tail := r3.takeWhile (fun c => c ≠ ',')
      some (ds ++ sp ++ '%' :: tail, r3.drop tail.length)
    | _ => none

/-- The capture `(\d+\s*[MG]?Pa[^,]*)` of the strength patterns: digits,
whitespace, an optional M or G, a literal `Pa` (case-insensitive), then
everything up to the next comma. -/
def capturePa (cs : List Char) : Option (List Char × List Char) :=
  let ds := cs.takeWhile Char.isDigit
  if ds = [] then none
  else
    let r1 := cs.drop ds.length
    let sp := r1.takeWhile isPySpace
    let r2 := r1.drop sp.length
    match r2 with
    | m :: rest2 =>
      if m.toLower = 'm' || m.toLower = 'g' then
        match stripPrefixCI ['P', 'a'] rest2 with
        | some r3 =>
          let tail := r3.takeWhile (fun c => c ≠ ',')
          some (ds ++ sp ++ m :: rest2.take 2 ++ tail, r3.drop tail.length)
        | none => none
      else
        match stripPrefixCI ['P', 'a'] r2 with
        | some r3 =>
          let tail := r3.takeWhile (fun c => c ≠ ',')
          some (ds ++ sp ++ r2.take 2 ++ tail, r3.drop tail.length)
        | none => none
    | [] => none

/-- The capture `(\d+\s*도?[^,]*)` of the bending pattern: past the
required digits, `\s*`, the optional `도` and `[^,]*` jointly match
everything up to the next comma. -/
def captureDo (cs : List Char) : Option (List Char × List Char) :=
  let ds := cs.takeWhile Char.isDigit
  if ds = [] then none
  else
    let r1 := cs.drop ds.length
    let tail := r1.takeWhile (fun c => c ≠ ',')
    some (ds ++ tail, r1.drop tail.length)

/-- The lazy gap `.*?` before a capture: try the capture at each position,
advancing one character at a time; `.` does not match a newline, so the
search stops at one. -/
def lazyCapture (capt : List Char → Option (List Char × List Char)) :
    ℕ → List Char → Option (List Char × List Char)
  | 0, _ => none
  | fuel + 1, cs =>
    match capt cs with
    | some r => some r
    | none =>
      match cs with
      | [] => none
      | '\n' :: _ => none
      | _ :: t => lazyCapture capt fuel t

/-- One attempted match of `(?:alt1|alt2|...).*?(capture)` at the current
position, trying the keyword alternatives in order with backtracking into
the lazy gap. -/
def matchAltLazy (alts : List (List Char))
    (capt : List Char → Option (List Char × List Char))
    (cs : List Char) : Option (List Char × List Char) :=
  alts.findSome? (fun a =>
    match stripPrefixCI a cs with
    | none => none
    | some r => lazyCapture capt (r.length + 1) r)

/-- One attempted match of `LEAD.*?(capture)` at the current position for a
composite leading literal. -/
def matchLeadLazy (lead : List Char → Option (List Char))
    (capt : List Char → Option (List Char × List Char))
    (cs : List Char) : Option (List Char × List Char) :=
  match lead cs with
  | none => none
  | some r => lazyCapture capt (r.length + 1) r

/-- The leading literal `인장\s*강도` of the tensile-strength pattern. -/
def tensileStrengthLead (cs : List Char) : Option (List Char) :=
  match stripPrefixCI ['인', '장'] cs with
  | none => none
  | some r => stripPrefixCI ['강', '도'] (r.dropWhile isPySpace)

/-- The leading literal `항복\s*강도` of the yield-strength pattern. -/
def yieldStrengthLead (cs : List Char) : Option (List Char) :=
  match stripPrefixCI ['항', '복'] cs with
  | none => none
  | some r => stripPrefixCI ['강', '도'] (r.dropWhile isPySpace)

/-- The plain element patterns of `element_patterns` (rag_system.py
lines 502-510): pattern symbol and output label, in source order. -/
def plainElementSyms : List (String × String) :=
  [("C", "C"), ("Si", "Si"), ("Mn", "Mn"), ("P", "P"), ("S", "S"),
   ("Cr", "Cr"), ("Mo", "Mo"), ("Ti", "Ti"), ("Nb", "Nb")]

/-- The alias element patterns of `element_patterns` (rag_system.py
lines 512-519): alias alternatives, parenthesised symbol, output label,
in source order. -/
def aliasElementSyms : List (List String × String × String) :=
  [(["탄소", "carbon"], "C", "C"),
   (["실리콘", "silicon"], "Si", "Si"),
   (["망간", "manganese"], "Mn", "Mn"),
   (["인", "phosphorus"], "P", "P"),
   (["황", "sulfur"], "S", "S"),
   (["크롬", "chromium"], "Cr", "Cr"),
   (["붕소", "boron"], "B", "B"),
   (["알루미늄", "aluminum"], "Al", "Al")]

/-- The microstructure patterns of `microstructure_patterns`
(rag_system.py lines 523-529): keyword alternatives and output label. -/
def microstructureSyms : List (List String × String) :=
  [(["마르텐사이트", "마텐자이트", "martensite"], "마르텐사이트"),
   (["베이나이트", "bainite"], "베이나이트"),
   (["오스테나이트", "austenite"], "오스테나이트"),
   (["페라이트", "ferrite"], "페라이트"),
   (["펄라이트", "pearlite"], "펄라이트")]

/-- Ordered concatenation of per-item expansions (Python list-append in a
loop). -/
def concatMap (f : α → List β) : List α → List β
  | [] => []
  | a :: t => f a ++ concatMap f t

/-- Post-processing of one element match (rag_system.py lines 534-539):
strip, delete the filler pattern, strip again, drop the entry when the
value is empty, otherwise emit `"<label>: <value>"`. -/
def elementEntry (label : String) (m : List Char) : List String :=
  let v := pyStrip (removeFiller (pyStrip m))
  if v = [] then [] else [label ++ ": " ++ String.mk v]

/-- Mirrors `_extract_components_from_claim` (rag_system.py lines 496-560): the
element patterns (plain then alias, each scanned over the whole text with
`re.findall`), then the microstructure patterns, then the mechanical
property patterns, appending entries in source order. -/
def extractComponentsFromClaim (claimText : String) : List String :=
  let cs := claimText.data
  let n := cs.length
  let elems := concatMap (fun p =>
    concatMap (elementEntry p.2) (scanWith (matchElemAt p.1.data) n cs))
    plainElementSyms
  let aliases := concatMap (fun p =>
    concatMap (elementEntry p.2.2)
      (scanWith (matchAliasAt (p.1.map String.data) p.2.1.data) n cs))
    aliasElementSyms
  let micro := concatMap (fun p =>
    (scanWith (matchAltLazy (p.1.map String.data) capturePercent) n cs).map
      (fun m => p.2 ++ ": " ++ String.mk (pyStrip m)))
    microstructureSyms
  let mech :=
    (scanWith (matchLeadLazy tensileStrengthLead capturePa) n cs).map
      (fun m => "인장강도: " ++ String.mk (pyStrip m)) ++
    (scanWith (matchLeadLazy yieldStrengthLead capturePa) n cs).map
      (fun m => "항복강도: " ++ String.mk (pyStrip m)) ++
    (scanWith (matchAltLazy [['연', '신']] capturePercent) n cs).map
      (fun m => "연신율: " ++ String.mk (pyStrip m)) ++
    (scanWith (matchAltLazy [['굽', '힘']] captureDo) n cs).map
      (fun m => "굽힘성: " ++ String.mk (pyStrip m))
  elems ++ aliases ++ micro ++ mech

/-- Inner product of two rational vectors. -/
def innerProd (u v : List ℚ) : ℚ := (List.zipWith (fun a b => a * b) u v).sum

/-- Descending-score comparison on scored candidates. -/
def descBySim (a b : ℕ × ℚ) : Prop := b.2 ≤ a.2

instance : DecidableRel descBySim :=
  fun a b => inferInstanceAs (Decidable (b.2 ≤ a.2))

instance : IsTotal (ℕ × ℚ) descBySim := ⟨fun a b => le_total b.2 a.2⟩

instance : IsTrans (ℕ × ℚ) descBySim := ⟨fun _ _ _ h1 h2 => le_trans h2 h1⟩

/-- Modelled from the spec: the VectorIndex nearest-neighbour search of
§4.1.  The index implementation itself is the external FAISS library
(`faiss.IndexFlatIP`, called at rag_system.py line 153), whose source is
not part of this repository; the spec contract is exact inner-product
search — score every stored vector against the query and return the top
`k` `(index, raw_score)` pairs sorted by descending inner product. -/
def vectorIndexSearch (corpus : List (List ℚ)) (query : List ℚ) (k : ℕ) :
    List (ℕ × ℚ) :=
  let scored := (List.range corpus.length).map
    (fun i => (i, innerProd query (corpus.getD i [])))
  (List.insertionSort descBySim scored).take k

/-- An HTTP error response: status code and detail string. -/
structure HTTPError where
  status : ℕ
  detail : String

/-- The two search entry points of the loaded engine as the API route
dispatches to them (`rag_system.search_similar_patents` and
`rag_system.enhanced_similarity_search`); the engine internals are opaque
to the route. -/
structure RagEngine where
  plainSearch : String → ℕ → List String
  filteredSearch : String → List (String × String) → ℕ → List String

/-- The `/search-similar-patents` route handler (main.py lines 161-192):
reject an empty (falsy) claim text with a 400 before anything else, then a
missing engine with a 503, then dispatch on whether filters were given. -/
def searchSimilarPatentsRoute (engine? : Option RagEngine)
    (claimText : String) (filters : List (String × String)) (topK : ℕ) :
    Except HTTPError (List String) :=
  if claimText = "" then Except.error ⟨400, "Claim text is required"⟩
  else
    match engine? with
    | none => Except.error ⟨503, "RAG system not available"⟩
    | some engine =>
      Except.ok
        (if filters ≠ [] then engine.filteredSearch claimText filters topK
         else engine.plainSearch claimText topK)

/-- Symmetric-matrix check: every matrix entry whose column label is itself
a row label must be mirrored there with the same value. -/
def matrixSymmOk : Bool :=
  gradeSimilarityMatrix.all (fun r1 => r1.2.all (fun e =>
    match matrixEntry e.1 r1.1 with
    | some w => decide (w = e.2)
    | none => true))

/-- Range check: every matrix value lies in [0, 1]. -/
def matrixValuesOk : Bool :=
  gradeSimilarityMatrix.all (fun r => r.2.all (fun e =>
    decide (0 ≤ e.2) && decide (e.2 ≤ 1)))

/-- Python `min(x, y)` is bounded by its second argument. -/
theorem pyMin_le_right (a b : ℚ) : pyMin a b ≤ b := by
  unfold pyMin
  split
  · assumption
  · exact le_refl b

/-- Step 1 of the pipeline is multiplication by the isolated
product-group factor. -/
theorem applyProductGroupStep_eq (x : ℚ) (q p : String) :
    applyProductGroupStep x q p = x * productGroupFactor q p := by
  unfold applyProductGroupStep productGroupFactor
  split_ifs <;> ring

/-- Step 2 of the pipeline multiplies by 0.1 exactly once when either
severe-cross condition holds, and by 1 otherwise. -/
theorem applyCrossPenaltyStep_eq (x : ℚ) (qpg ppg qsg psg : String) :
    applyCrossPenaltyStep x qpg ppg qsg psg =
      x * (if severeCrossPenalty qpg ppg qsg psg then mkRat 1 10 else 1) := by
  unfold applyCrossPenaltyStep severeCrossPenalty
  split_ifs with h1 h2 h3 h4 h5
  · ring
  · exact absurd (Or.inl h1) h2
  · ring
  · exact absurd (Or.inr h3) h4
  · exact h5.elim (fun h => absurd h h1) (fun h => absurd h h3)
  · ring

/-- Step 3 of the pipeline is multiplication by the isolated steel-grade
band factor. -/
theorem applySteelGradeStep_eq (x : ℚ) (q p : String) :
    applySteelGradeStep x q p = x * steelGradeFactor q p := by
  simp only [applySteelGradeStep, steelGradeFactor]
  split_ifs <;> ring

/-- The whole ScoreAdjuster pipeline in closed multiplicative form: base
times the product-group factor, times a single severe-cross factor, times
the steel-grade factor, times the technical bonus, clamped at 100. -/
theorem calculateEnhancedSimilarity_factored (base : ℚ)
    (qpg ppg qsg psg qt ct : String) :
    calculateEnhancedSimilarity base qpg ppg qsg psg qt ct =
      pyMin (base * productGroupFactor qpg ppg *
        (if severeCrossPenalty qpg ppg qsg psg then mkRat 1 10 else 1) *
        steelGradeFactor qsg psg *
        (1 + calculateTechnicalContentBonus qt ct)) 100 := by
  simp only [calculateEnhancedSimilarity, applyProductGroupStep_eq,
    applyCrossPenaltyStep_eq, applySteelGradeStep_eq]

/-- Concrete value of the pipeline at base 50, query group Mart강,
candidate group HPF강, empty steel grades and term-free texts: the two
groups are listed as related, so step 1 is the ×1.15 bonus, and step 2
applies the ×0.10 cross-penalty, giving 5.75. -/
theorem enhancedSimilarityMartHPFValue :
    calculateEnhancedSimilarity 50 "Mart강" "HPF강" "" "" "" "" = 23/4 := by
  rw [calculateEnhancedSimilarity_factored]
  rw [show productGroupFactor "Mart강" "HPF강" = mkRat 23 20 from by decide,
      show steelGradeFactor "" "" = 1 from by decide,
      show calculateTechnicalContentBonus "" "" = 0 from by decide,
      if_pos (show severeCrossPenalty "Mart강" "HPF강" "" "" from by decide)]
  unfold pyMin
  rw [if_pos (by norm_num [Rat.mkRat_eq_div])]
  norm_num [Rat.mkRat_eq_div]

/-- The symmetric-matrix boolean check holds for the source matrix. -/
theorem matrixSymmOk_true : matrixSymmOk = true := by decide

/-- The value-range boolean check holds for the source matrix. -/
theorem matrixValuesOk_true : matrixValuesOk = true := by decide

/-- A successful direct matrix lookup comes from a row of the literal
matrix whose label is the first grade, at an entry labelled with the
second grade. -/
theorem matrixEntry_elim {a b : String} {v : ℚ}
    (h : matrixEntry a b = some v) :
    ∃ r, r ∈ gradeSimilarityMatrix ∧ r.1 = a ∧
      ∃ e, e ∈ r.2 ∧ e.1 = b ∧ e.2 = v := by
  unfold matrixEntry at h
  cases hr : gradeSimilarityMatrix.find? (fun r => r.1 == a) with
  | none => rw [hr] at h; exact absurd h (by simp)
  | some r =>
    rw [hr] at h
    have h2 : (match r.2.find? (fun e => e.1 == b) with
      | some e => some e.2
      | none => none) = some v := h
    cases he : r.2.find? (fun e => e.1 == b) with
    | none => rw [he] at h2; exact absurd h2 (by simp)
    | some e =>
      rw [he] at h2
      have hb1 := List.find?_some hr
      have hb2 := List.find?_some he
      have hra : r.1 = a := eq_of_beq hb1
      have heb : e.1 = b := eq_of_beq hb2
      exact ⟨r, List.mem_of_find?_eq_some hr, hra,
        e, List.mem_of_find?_eq_some he, heb,
        Option.some.inj h2⟩

/-- When both directed lookups succeed they agree: the literal matrix is
symmetric wherever both entries exist. -/
theorem matrixEntry_symm_val {a b : String} {v w : ℚ}
    (h1 : matrixEntry a b = some v) (h2 : matrixEntry b a = some w) :
    v = w := by
  obtain ⟨r, hrmem, hra, e, hemem, heb, hev⟩ := matrixEntry_elim h1
  have hok : matrixSymmOk = true := matrixSymmOk_true
  unfold matrixSymmOk at hok
  have hce := List.all_eq_true.mp (List.all_eq_true.mp hok r hrmem) e hemem
  rw [heb, hra, h2] at hce
  exact ((of_decide_eq_true hce).trans hev).symm

/-- Every value stored in the literal matrix lies in [0, 1]. -/
theorem matrixEntry_bounds {a b : String} {v : ℚ}
    (h : matrixEntry a b = some v) : 0 ≤ v ∧ v ≤ 1 := by
  obtain ⟨r, hrmem, hra, e, hemem, heb, hev⟩ := matrixEntry_elim h
  have hok : matrixValuesOk = true := matrixValuesOk_true
  unfold matrixValuesOk at hok
  have hce := List.all_eq_true.mp (List.all_eq_true.mp hok r hrmem) e hemem
  obtain ⟨ha, hb⟩ := Bool.and_eq_true_iff.mp hce
  rw [← hev]
  exact ⟨of_decide_eq_true ha, of_decide_eq_true hb⟩

/-- A text containing any HPF keyword classifies as HPF강 in the grade
table: the HPF강 entry is the first row, so it wins whatever else the
text contains. -/
theorem extractSteelGrade_hpf (t : String)
    (h : ∃ kw ∈ hpfGradeKeywords, containsCI kw t = true) :
    extractSteelGradeFromQuery t = "HPF강" := by
  have hp : (("HPF강", hpfGradeKeywords).2.any
      (fun kw => containsCI kw t)) = true := by
    simpa using List.any_eq_true.mpr (by simpa using h)
  unfold extractSteelGradeFromQuery steelGradeKeywords
  rw [@List.find?_cons_of_pos _ (fun e => e.2.any fun kw => containsCI kw t)
    ("HPF강", hpfGradeKeywords) _ hp]

/-- A text containing any Mart product keyword classifies as Mart강 in
the product-group table: the Mart강 entry is the first row. -/
theorem extractProductGroup_mart (t : String)
    (h : ∃ kw ∈ martProductKeywords, containsCI kw t = true) :
    extractProductGroupFromQuery t = "Mart강" := by
  have hp : (("Mart강", martProductKeywords).2.any
      (fun kw => containsCI kw t)) = true := by
    simpa using List.any_eq_true.mpr (by simpa using h)
  unfold extractProductGroupFromQuery productGroupKeywords
  rw [@List.find?_cons_of_pos _ (fun e => e.2.any fun kw => containsCI kw t)
    ("Mart강", martProductKeywords) _ hp]

/-- A text matching no keyword of any grade-table entry classifies as the
empty string. -/
theorem extractSteelGrade_none (t : String)
    (h : ∀ e ∈ steelGradeKeywords, ∀ kw ∈ e.2, containsCI kw t = false) :
    extractSteelGradeFromQuery t = "" := by
  have hnone : ∀ e ∈ steelGradeKeywords,
      ¬((fun e : String × List String =>
        e.2.any (fun kw => containsCI kw t)) e = true) := by
    intro e he hany
    obtain ⟨kw, hkw, hc⟩ := List.any_eq_true.mp hany
    rw [h e he kw hkw] at hc
    exact Bool.false_ne_true hc
  unfold extractSteelGradeFromQuery
  rw [List.find?_eq_none.mpr hnone]

/-- Claim C1, counterexample: for adjust called with base 50, query
product group Mart강, candidate product group HPF강, both steel grades
empty and term-free texts, the returned score is NOT 4.0 as the claim
states — Mart강 and HPF강 are listed in the related-groups table, so
step 1 applies the ×1.15 related bonus rather than the ×0.80 unrelated
penalty. -/
theorem claim_C1_counterexample :
    calculateEnhancedSimilarity 50 "Mart강" "HPF강" "" "" "" "" ≠ 4 := by
  rw [enhancedSimilarityMartHPFValue]
  norm_num

/-- Claim C1, amended: for adjust called with base 50, query product
group Mart강, candidate product group HPF강, both steel grades empty and
texts sharing no technical terms, the returned score is 5.75 = 23/4:
step 1 related bonus ×1.15 (the two groups are mutually related in the
related-groups table), then the step 2 severe cross-penalty ×0.10, with
the clamp a no-op. -/
theorem claim_C1 :
    calculateEnhancedSimilarity 50 "Mart강" "HPF강" "" "" "" "" = 23/4 :=
  enhancedSimilarityMartHPFValue

/-- Claim C2: for every corpus and query, searching the vector index with
k at least the corpus size returns every document exactly once (the
returned indices are a permutation of the full index range), sorted by
descending raw inner-product score, each paired with its raw score. -/
theorem claim_C2 (corpus : List (List ℚ)) (query : List ℚ) (k : ℕ)
    (h : corpus.length ≤ k) :
    ((vectorIndexSearch corpus query k).map Prod.fst).Perm
      (List.range corpus.length) ∧
    List.Sorted descBySim (vectorIndexSearch corpus query k) ∧
    ∀ p ∈ vectorIndexSearch corpus query k,
      p.2 = innerProd query (corpus.getD p.1 []) := by
  set scored := (List.range corpus.length).map
    (fun i => (i, innerProd query (corpus.getD i []))) with hscored
  have hperm := List.perm_insertionSort descBySim scored
  have hlen : (List.insertionSort descBySim scored).length = corpus.length := by
    rw [hperm.length_eq, hscored, List.length_map, List.length_range]
  have htake : vectorIndexSearch corpus query k =
      List.insertionSort descBySim scored := by
    simp only [vectorIndexSearch, hscored]
    exact List.take_of_length_le (le_trans (le_of_eq hlen) h)
  refine ⟨?_, ?_, ?_⟩
  · rw [htake]
    have h2 : scored.map Prod.fst = List.range corpus.length := by
      rw [hscored, List.map_map]
      exact List.map_id _
    exact h2 ▸ hperm.map Prod.fst
  · rw [htake]
    exact List.sorted_insertionSort descBySim scored
  · intro p hp
    rw [htake] at hp
    obtain ⟨i, hi, hpe⟩ := List.mem_map.mp (hperm.mem_iff.mp hp)
    rw [← hpe]

/-- Witness for claim C2 at a two-document corpus with k equal to the
corpus size. -/
theorem claim_C2_witness :
    (([[(1 : ℚ)], [2]] : List (List ℚ)).length ≤ 2) ∧
    (((vectorIndexSearch [[(1 : ℚ)], [2]] [1] 2).map Prod.fst).Perm
      (List.range ([[(1 : ℚ)], [2]] : List (List ℚ)).length) ∧
    List.Sorted descBySim (vectorIndexSearch [[(1 : ℚ)], [2]] [1] 2) ∧
    ∀ p ∈ vectorIndexSearch [[(1 : ℚ)], [2]] [1] 2,
      p.2 = innerProd [1] (([[(1 : ℚ)], [2]] : List (List ℚ)).getD p.1 [])) :=
  ⟨by decide, claim_C2 [[(1 : ℚ)], [2]] [1] 2 (by decide)⟩

/-- Claim C3: for every base similarity in [0, 100] and all label and
text inputs, the ScoreAdjuster pipeline returns at most 100, because the
last step clamps with min(score, 100.0). -/
theorem claim_C3 (base : ℚ) (qpg ppg qsg psg qt ct : String)
    (h0 : 0 ≤ base) (h100 : base ≤ 100) :
    calculateEnhancedSimilarity base qpg ppg qsg psg qt ct ≤ 100 :=
  pyMin_le_right _ _

/-- Witness for claim C3 at a maximally boosted concrete input. -/
theorem claim_C3_witness :
    (0 ≤ (50 : ℚ)) ∧ ((50 : ℚ) ≤ 100) ∧
    calculateEnhancedSimilarity 50 "HPF강" "HPF강" "HPF강" "HPF강" "강도" "강도"
      ≤ 100 :=
  ⟨by norm_num, by norm_num,
   claim_C3 50 "HPF강" "HPF강" "HPF강" "HPF강" "강도" "강도"
     (by norm_num) (by norm_num)⟩

/-- Claim C4: a text containing both an HPF keyword and a Mart keyword
classifies as HPF강 in the steel-grade table (HPF row checked first,
first match wins, case-insensitive substring lookup), and a text matching
no keyword of any entry yields the empty string. -/
theorem claim_C4 :
    (∀ t : String, (∃ kw ∈ hpfGradeKeywords, containsCI kw t = true) →
      (∃ kw ∈ martGradeKeywords, containsCI kw t = true) →
      extractSteelGradeFromQuery t = "HPF강") ∧
    (∀ t : String,
      (∀ e ∈ steelGradeKeywords, ∀ kw ∈ e.2, containsCI kw t = false) →
      extractSteelGradeFromQuery t = "") :=
  ⟨fun t h _ => extractSteelGrade_hpf t h,
   fun t h => extractSteelGrade_none t h⟩

/-- Witness for claim C4: a text with both an HPF and a Mart grade
keyword classifies as HPF강, and a keyword-free text classifies as
empty. -/
theorem claim_C4_witness :
    extractSteelGradeFromQuery "HPF 마르텐사이트강" = "HPF강" ∧
    extractSteelGradeFromQuery "no steel words" = "" :=
  ⟨claim_C4.1 "HPF 마르텐사이트강" (by decide) (by decide),
   claim_C4.2 "no steel words" (by decide)⟩

/-- Claim C5: year extraction agrees everywhere with the spec rule (split
before the first dash, else the first slash, else the first 4 characters
when length is at least 4, else 2020, with parse failures giving 2020),
and takes the documented values on the four sample inputs. -/
theorem claim_C5 :
    (∀ s : String, extractYear s = specYearExtract s) ∧
    extractYear "2021-03-15" = 2021 ∧ extractYear "2021/03/15" = 2021 ∧
    extractYear "20210315" = 2021 ∧ extractYear "" = 2020 := by
  refine ⟨?_, by decide, by decide, by decide, by decide⟩
  intro s
  by_cases h : s = ""
  · subst h; decide
  · unfold extractYear specYearExtract
    rw [if_neg h]

/-- Claim C6: the steel-grade similarity is symmetric for all grade
labels, equals 1 on equal grades, always lies in [0, 1], and defaults to
0.1 for every pair absent from the matrix in both directions. -/
theorem claim_C6 :
    (∀ g1 g2 : String, calculateSteelGradeSimilarity g1 g2 =
      calculateSteelGradeSimilarity g2 g1) ∧
    (∀ g : String, calculateSteelGradeSimilarity g g = 1) ∧
    (∀ g1 g2 : String, 0 ≤ calculateSteelGradeSimilarity g1 g2 ∧
      calculateSteelGradeSimilarity g1 g2 ≤ 1) ∧
    (∀ g1 g2 : String, g1 ≠ g2 → matrixEntry g1 g2 = none →
      matrixEntry g2 g1 = none →
      calculateSteelGradeSimilarity g1 g2 = mkRat 1 10) := by
  refine ⟨?_, ?_, ?_, ?_⟩
  · intro g1 g2
    by_cases h : g1 = g2
    · subst h; rfl
    · unfold calculateSteelGradeSimilarity
      rw [if_neg h, if_neg (Ne.symm h)]
      cases h12 : matrixEntry g1 g2 with
      | none =>
        cases h21 : matrixEntry g2 g1 with
        | none => rfl
        | some w => rfl
      | some v =>
        cases h21 : matrixEntry g2 g1 with
        | none => rfl
        | some w => exact matrixEntry_symm_val h12 h21
  · intro g
    unfold calculateSteelGradeSimilarity
    rw [if_pos rfl]
  · intro g1 g2
    by_cases h : g1 = g2
    · rw [h]
      have h1 : calculateSteelGradeSimilarity g2 g2 = 1 := by
        unfold calculateSteelGradeSimilarity
        rw [if_pos rfl]
      rw [h1]
      exact ⟨by norm_num, le_refl 1⟩
    · unfold calculateSteelGradeSimilarity
      rw [if_neg h]
      cases h12 : matrixEntry g1 g2 with
      | some v => exact matrixEntry_bounds h12
      | none =>
        cases h21 : matrixEntry g2 g1 with
        | some w => exact matrixEntry_bounds h21
        | none => exact ⟨by decide, by decide⟩
  · intro g1 g2 hne h12 h21
    unfold calculateSteelGradeSimilarity
    rw [if_neg hne, h12, h21]

/-- Witness for claim C6 at concrete grades: symmetry at an entry pair,
the off-matrix default 0.1 at TWIP강 versus CP강, bounds at that pair,
and the equal-grade value 1. -/
theorem claim_C6_witness :
    calculateSteelGradeSimilarity "TWIP강" "CP강" =
      calculateSteelGradeSimilarity "CP강" "TWIP강" ∧
    calculateSteelGradeSimilarity "TWIP강" "CP강" = mkRat 1 10 ∧
    (0 ≤ calculateSteelGradeSimilarity "TWIP강" "CP강" ∧
      calculateSteelGradeSimilarity "TWIP강" "CP강" ≤ 1) ∧
    calculateSteelGradeSimilarity "DP강" "DP강" = 1 :=
  ⟨claim_C6.1 "TWIP강" "CP강",
   claim_C6.2.2.2 "TWIP강" "CP강" (by decide) (by decide) (by decide),
   claim_C6.2.2.1 "TWIP강" "CP강",
   claim_C6.2.1 "DP강"⟩

/-- Claim C7: the entity extractor applied to the sample claim text
yields an entry for carbon with value 0.1~0.3% and an entry for manganese
with value 1.5% 이상, each formatted as label, colon, space, trimmed
value. -/
theorem claim_C7 :
    "C: 0.1~0.3%" ∈ extractComponentsFromClaim "C: 0.1~0.3%, Mn: 1.5% 이상" ∧
    "Mn: 1.5% 이상" ∈ extractComponentsFromClaim "C: 0.1~0.3%, Mn: 1.5% 이상" := by
  decide

/-- Claim C8: the search route rejects an empty claim text with the 400
error before consulting the engine, for every engine state, filter set
and k. -/
theorem claim_C8 (engine? : Option RagEngine)
    (filters : List (String × String)) (topK : ℕ) :
    searchSimilarPatentsRoute engine? "" filters topK =
      Except.error ⟨400, "Claim text is required"⟩ := rfl

/-- Claim C9: the severe ×0.10 cross-penalty enters the final score as a
single factor — the pipeline equals base times the product-group factor,
times 1/10 exactly once when either or both of the two severe conditions
hold (and 1 otherwise), times the steel-grade factor, times the technical
bonus, clamped at 100; the factor is never applied twice. -/
theorem claim_C9 (base : ℚ) (qpg ppg qsg psg qt ct : String) :
    calculateEnhancedSimilarity base qpg ppg qsg psg qt ct =
      pyMin (base * productGroupFactor qpg ppg *
        (if severeCrossPenalty qpg ppg qsg psg then mkRat 1 10 else 1) *
        steelGradeFactor qsg psg *
        (1 + calculateTechnicalContentBonus qt ct)) 100 :=
  calculateEnhancedSimilarity_factored base qpg ppg qsg psg qt ct

/-- Claim C10: a text containing both a Mart product keyword and an HPF
grade keyword classifies as Mart강 at the product-group level (Mart row
first in that table) and as HPF강 at the steel-grade level (HPF row
first in that table) — opposite tie-breaks. -/
theorem claim_C10 (t : String)
    (h1 : ∃ kw ∈ martProductKeywords, containsCI kw t = true)
    (h2 : ∃ kw ∈ hpfGradeKeywords, containsCI kw t = true) :
    extractProductGroupFromQuery t = "Mart강" ∧
    extractSteelGradeFromQuery t = "HPF강" :=
  ⟨extractProductGroup_mart t h1, extractSteelGrade_hpf t h2⟩

/-- Witness for claim C10 at a text containing both a Mart keyword and an
HPF keyword. -/
theorem claim_C10_witness :
    extractProductGroupFromQuery "마르텐사이트 HPF" = "Mart강" ∧
    extractSteelGradeFromQuery "마르텐사이트 HPF" = "HPF강" :=
  claim_C10 "마르텐사이트 HPF" (by decide) (by decide)
